import Mathlib

/-!
Verification of the EFIGI dataset-curation pipeline (akash_ganga).

The development shallowly embeds the curation core of
`src/download_and_process_data.py` (and, where a claim cites it, the legacy
copy in `src/download_and_sort_EIFIGI_raw_data.py`):

* the galaxy-type enumeration `T` and the classifier `check_class`;
* the manifest reader `row_generator`;
* the directory labeler `move_files_according_to_txt`, over an explicit
  filesystem model (`FS`) with Python exceptions modelled by `Except`;
* the folder scaffolder `make_folders_from_labels`;
* the stratified splitter `shuffle_data` (split normalisation, sample-size
  computation, and the per-class relocation loop).

Paths are modelled as lists of components (`os.path.join a b` becomes list
append).  Machine floats of the split fraction are modelled by `ℚ`; Python's
`int()` truncation of a non-negative product is `Int.floor` + `Int.toNat`.
-/

/-- The `T` enumeration of galaxy types (`@unique class T(Enum)`). -/
inductive T where
  | ELLIPTICAL
  | LENTICULAR
  | SPIRAL
  | IRREGULAR
  | DWARF
deriving DecidableEq, Repr

/-- Python `member.name` of the enum: the member's identifier as a string. -/
def T.nameStr : T → String
  | .ELLIPTICAL => "ELLIPTICAL"
  | .LENTICULAR => "LENTICULAR"
  | .SPIRAL => "SPIRAL"
  | .IRREGULAR => "IRREGULAR"
  | .DWARF => "DWARF"

/-- Function `check_class` of `download_and_process_data.py` (lines 356-380), on an
already-coerced integer index.  The Python `elif` chain is an `if` chain; the
final fall-through `return None` is `none`. -/
def check_class (t_val : Int) : Option T :=
  if t_val < -3 then some .ELLIPTICAL
  else if -3 ≤ t_val ∧ t_val < 0 then some .LENTICULAR
  else if 0 ≤ t_val ∧ t_val < 9 then some .SPIRAL
  else if 9 ≤ t_val ∧ t_val ≤ 10 then some .IRREGULAR
  else if t_val = 11 then some .DWARF
  else none

/-- Function `check_class` of `download_and_sort_EIFIGI_raw_data.py` (lines 292-315):
the legacy copy, whose Spiral/Irregular boundary sits at 10 rather than 9
(`elif t_val < 10: return T.SPIRAL`, `elif t_val == 10: return T.IRREGULAR`). -/
def check_class_sort (t_val : Int) : Option T :=
  if t_val < -3 then some .ELLIPTICAL
  else if t_val < 0 then some .LENTICULAR
  else if t_val < 10 then some .SPIRAL
  else if t_val = 10 then some .IRREGULAR
  else if t_val = 11 then some .DWARF
  else none

/-!  ## Record parser (`row_generator`, lines 256-277)

The file is a list of the strings `readline` returns; mid-file every such
string is nonempty (a blank line is `"\n"`), and at end of file `readline`
returns `""`, which does not start with `#`.  -/

/-- Predicate for `row.startswith` on the comment marker: the row's first character is `#` (kernel-reducible
form over the underlying character list). -/
def starts_with_hash (s : String) : Bool := s.data.head? = some '#'

/-- First `while` loop of `row_generator`: keep calling `readline` while the
row starts with `#`.  Exhausting the list corresponds to `readline`
returning `""` at EOF, which does not start with `#`, so the loop exits. -/
def skip_initial_comments : List String → List String
  | [] => []
  | r :: rs => if starts_with_hash r then skip_initial_comments rs else r :: rs

/-- Second `while row:` loop of `row_generator`: yield rows until `readline`
returns the falsy `""`. -/
def yield_rows : List String → List String
  | [] => []
  | r :: rs => if r = "" then [] else r :: yield_rows rs

/-- Generator `row_generator` over the list of lines of the manifest file. -/
def row_generator (lines : List String) : List String :=
  yield_rows (skip_initial_comments lines)

theorem yield_rows_of_ne_empty (l : List String) (h : ∀ r ∈ l, r ≠ "") :
    yield_rows l = l := by
  induction l with
  | nil => rfl
  | cons r rs ih =>
      have hr : r ≠ "" := h r (by simp)
      simp only [yield_rows, if_neg hr]
      exact congrArg (r :: ·) (ih fun x hx => h x (by simp [hx]))

theorem skip_initial_comments_eq_dropWhile (l : List String) :
    skip_initial_comments l = l.dropWhile starts_with_hash := by
  induction l with
  | nil => rfl
  | cons r rs ih =>
      by_cases hr : starts_with_hash r
      · simp [skip_initial_comments, List.dropWhile, hr, ih]
      · simp [skip_initial_comments, List.dropWhile, hr]

theorem mem_dropWhile_mem {p : String → Bool} {l : List String} {x : String}
    (hx : x ∈ l.dropWhile p) : x ∈ l :=
  List.dropWhile_sublist p |>.mem hx

/-- C4: for every manifest file (a list of `readline` results, each
nonempty before EOF), `row_generator` skips exactly the contiguous leading
block of rows starting with `#` and yields every subsequent row verbatim —
in particular rows after the first non-comment row that themselves start
with `#` are yielded. -/
theorem c4_row_generator_dropWhile (lines : List String)
    (h : ∀ r ∈ lines, r ≠ "") :
    row_generator lines = lines.dropWhile starts_with_hash := by
  unfold row_generator
  rw [skip_initial_comments_eq_dropWhile]
  exact yield_rows_of_ne_empty _ fun r hr => h r (mem_dropWhile_mem hr)

/-- Witness for C4 on a concrete manifest: two leading comment rows are
skipped, a later comment-marked row is yielded verbatim. -/
theorem c4_row_generator_dropWhile_witness :
    row_generator ["# h1", "# h2", "PGC1 3", "# late", "PGC2 5"] =
      ["PGC1 3", "# late", "PGC2 5"] := by
  have h := c4_row_generator_dropWhile
    ["# h1", "# h2", "PGC1 3", "# late", "PGC2 5"] (by decide)
  rw [h]
  decide

/-! ## C1: the classification table -/

/-- C1 counterexample: the claim asserts Irregular iff `9 ≤ t ≤ 10` of
`check_class`, citing both copies; the legacy copy in
`download_and_sort_EIFIGI_raw_data.py` classifies `t = 9` as Spiral, not
Irregular. -/
theorem c1_sort_copy_at_nine :
    check_class_sort 9 = some T.SPIRAL ∧ check_class_sort 9 ≠ some T.IRREGULAR := by
  decide

/-- C1 (amended): the main pipeline's `check_class` follows the canonical
table exactly — Elliptical iff `t < -3`, Lenticular iff `-3 ≤ t < 0`, Spiral
iff `0 ≤ t < 9`, Irregular iff `9 ≤ t ≤ 10`, Dwarf iff `t = 11`, and no label
(without raising) for every other integer index; the legacy copy
`check_class_sort` follows the same table except that its Spiral range is
`0 ≤ t < 10` and its Irregular range is `t = 10` alone. -/
theorem c1_check_class_table (t : Int) :
    (check_class t = some T.ELLIPTICAL ↔ t < -3) ∧
    (check_class t = some T.LENTICULAR ↔ -3 ≤ t ∧ t < 0) ∧
    (check_class t = some T.SPIRAL ↔ 0 ≤ t ∧ t < 9) ∧
    (check_class t = some T.IRREGULAR ↔ 9 ≤ t ∧ t ≤ 10) ∧
    (check_class t = some T.DWARF ↔ t = 11) ∧
    (check_class t = none ↔ 10 < t ∧ t ≠ 11) ∧
    (check_class_sort t = some T.ELLIPTICAL ↔ t < -3) ∧
    (check_class_sort t = some T.LENTICULAR ↔ -3 ≤ t ∧ t < 0) ∧
    (check_class_sort t = some T.SPIRAL ↔ 0 ≤ t ∧ t < 10) ∧
    (check_class_sort t = some T.IRREGULAR ↔ t = 10) ∧
    (check_class_sort t = some T.DWARF ↔ t = 11) ∧
    (check_class_sort t = none ↔ 11 < t) := by
  unfold check_class check_class_sort
  refine ⟨?_, ?_, ?_, ?_, ?_, ?_, ?_, ?_, ?_, ?_, ?_, ?_⟩ <;>
    (split_ifs <;> simp_all <;> omega)

/-! ## Filesystem model

A path is its list of components; `os.path.join` of components is list
append.  `FS.files` and `FS.dirs` are the existing regular files and
directories.  Only claims about regular-file moves are settled here, so
`shutil_move` implements the file case: when the destination is an existing
directory the source is moved *inside* it (`shutil.move` joins the source's
basename onto the destination), and when the destination is an existing
file, `os.rename` on the same POSIX filesystem silently replaces it. -/

abbrev FPath := List String

/-- Filesystem state: the sets (as duplicate-free lists) of regular files
and of directories. -/
structure FS where
  files : List FPath
  dirs : List FPath
deriving DecidableEq, Repr

/-- Predicate `os.path.exists`: true for a file or a directory at the path. -/
def path_exists (fs : FS) (p : FPath) : Prop := p ∈ fs.files ∨ p ∈ fs.dirs

instance (fs : FS) (p : FPath) : Decidable (path_exists fs p) := by
  unfold path_exists; infer_instance

/-- Function `make_folder` (lines 383-392): create the directory unless the path
already exists.  (Ancestor creation by `os.makedirs` is not modelled; no
claim depends on intermediate directories.) -/
def make_folder (fs : FS) (p : FPath) : FS :=
  if path_exists fs p then fs else { fs with dirs := p :: fs.dirs }

/-- Remove a path from a file list (set-like removal). -/
def remove_file (l : List FPath) (p : FPath) : List FPath := l.filter (fun q => q ≠ p)

/-- Add a path to a file list, replacing any file already at that path. -/
def add_file (l : List FPath) (p : FPath) : List FPath := p :: l.filter (fun q => q ≠ p)

/-- Operation `shutil.move src dst` for a regular file `src`:
if `dst` is an existing directory the real destination is
`dst/basename(src)`; otherwise the file is renamed to `dst`,
silently replacing any existing file there. -/
def shutil_move (fs : FS) (src dst : FPath) : FS :=
  let realDst := if dst ∈ fs.dirs then dst ++ [src.getLastD ""] else dst
  { fs with files := add_file (remove_file fs.files src) realDst }

/-! ## Directory labeler (`move_files_according_to_txt`, lines 280-334)

Python exceptions that escape the function are the error values of
`Except`.  In Python 3:
* `int(tok)` on a non-numeral raises `ValueError`, which `check_class`
  catches and ignores — after which `t_val < -3` compares a `str` with an
  `int` and raises an uncaught `TypeError`;
* when `check_class` returns `None`, the labeler's `image_class.name`
  raises `AttributeError`; the surrounding `try` only handles `NameError`,
  so the `AttributeError` escapes;
* `attributes[i]` on a too-short row raises `IndexError`. -/

inductive PyErr where
  | typeError
  | attributeError
  | indexError
  | nameError
deriving DecidableEq, Repr

deriving instance DecidableEq for Except

/-- Python `int()` on a whitespace-free token: an optional sign followed by
at least one decimal digit.  (Tokens reaching `check_class` come from
`str.split()`, hence carry no surrounding whitespace.) -/
def py_int_core (digits : List Char) : Option Nat :=
  if digits ≠ [] ∧ digits.all Char.isDigit then
    some (digits.foldl (fun n c => 10 * n + (c.toNat - 48)) 0)
  else none

def py_int_of_string (s : String) : Option Int :=
  match s.data with
  | '-' :: rest => (py_int_core rest).map (fun n => -(n : Int))
  | '+' :: rest => (py_int_core rest).map (fun n => (n : Int))
  | l => (py_int_core l).map (fun n => (n : Int))

/-- Function `check_class` as called by the labeler, on the raw string token.  A
coercible token is classified by the integer table; on a non-coercible token
the caught `ValueError` leaves `t_val` a string and the comparison
`t_val < -3` raises `TypeError`. -/
def check_class_py (tok : String) : Except PyErr (Option T) :=
  match py_int_of_string tok with
  | some n => .ok (check_class n)
  | none => .error .typeError

/-- Assignment `image_class = image_class.name` inside `try/except NameError`: on a
real class this yields the name string; on `None` it raises
`AttributeError`, which the `NameError` handler does not catch. -/
def py_class_name : Option T → Except PyErr String
  | some c => .ok c.nameStr
  | none => .error .attributeError

/-- Indexing `attributes[i]`: list indexing raising `IndexError` when out of range. -/
def py_get (l : List String) (i : Nat) : Except PyErr String :=
  match l.get? i with
  | some v => .ok v
  | none => .error .indexError

/-- Split a character list at each whitespace character. -/
def split_chars : List Char → List (List Char)
  | [] => [[]]
  | c :: cs =>
    match split_chars cs with
    | [] => [[]]
    | w :: ws => if c.isWhitespace then [] :: w :: ws else (c :: w) :: ws

/-- Tokenizer `line.split()`: split on whitespace, dropping empty tokens. -/
def py_split (s : String) : List String :=
  ((split_chars s.data).map (fun w => String.mk w)).filter (fun t => t ≠ "")

/-- Filename `image_fname`: `attributes[0] + ".png"` for the composite modality,
`attributes[0] + "_" + extension + ".png"` otherwise. -/
def image_fname (pgc_name : String) (ext : Option String) : String :=
  match ext with
  | none => pgc_name ++ ".png"
  | some e => pgc_name ++ "_" ++ e ++ ".png"

/-- Arguments of `move_files_according_to_txt` other than the manifest. -/
structure LabelerCfg where
  data_dir : FPath
  image_dir : String
  dest_dir : FPath
  ext : Option String
deriving DecidableEq, Repr

/-- Events the labeler reports as it runs (its `print` calls). -/
inductive Event where
  | missingFile (p : FPath)
deriving DecidableEq, Repr

/-- One iteration of the labeler's `for line in row_generator(...)` loop. -/
def move_files_step (cfg : LabelerCfg) (st : FS × List Event) (line : String) :
    Except PyErr (FS × List Event) := do
  let attributes := py_split line
  let a0 ← py_get attributes 0
  let fname := image_fname a0 cfg.ext
  let a1 ← py_get attributes 1
  let cls ← check_class_py a1
  let clsName ← py_class_name cls
  let current := cfg.data_dir ++ [cfg.image_dir, fname]
  let destClassDir := cfg.dest_dir ++ [clsName]
  let destPath := destClassDir ++ [fname]
  let fs := if path_exists st.1 destClassDir then st.1 else make_folder st.1 destClassDir
  if path_exists fs current then
    pure (shutil_move fs current destPath, st.2)
  else
    pure (fs, st.2 ++ [Event.missingFile current])

/-- The labeler's loop over a list of manifest rows. -/
def run_rows (cfg : LabelerCfg) (st : FS × List Event) (rows : List String) :
    Except PyErr (FS × List Event) :=
  rows.foldlM (move_files_step cfg) st

/-- Function `move_files_according_to_txt`: iterate the per-row step over the rows
`row_generator` yields from the manifest. -/
def move_files_according_to_txt (cfg : LabelerCfg) (lines : List String)
    (fs : FS) : Except PyErr (FS × List Event) :=
  run_rows cfg (fs, []) (row_generator lines)

/-! ## C5, C6, C8: labeler error handling -/

/-- C5 (the code, at the claim's failing inputs): a manifest row whose
index is numeric but outside every classification range makes the batch
abort with the uncaught `AttributeError` from `None.name` (the handler
catches `NameError` only), and a row whose index token is not coercible
makes it abort with the uncaught `TypeError` from comparing a `str` with an
`int`; in both runs the well-formed second record is never processed. -/
theorem c5_invalid_record_aborts_batch :
    move_files_according_to_txt ⟨["d"], "png", ["r", "train"], none⟩
        ["# header", "PGC1 12", "PGC2 3"]
        ⟨[["d", "png", "PGC1.png"], ["d", "png", "PGC2.png"]], []⟩ =
      .error .attributeError ∧
    move_files_according_to_txt ⟨["d"], "png", ["r", "train"], none⟩
        ["PGC1 abc", "PGC2 3"]
        ⟨[["d", "png", "PGC1.png"], ["d", "png", "PGC2.png"]], []⟩ =
      .error .typeError := by
  decide

/-- C8: a record whose source image file does not exist is recorded as a
miss (`File not found` print) and the step returns normally with the file
set untouched; the loop then continues with the remaining rows, so the
batch is unaffected apart from the logged miss. -/
theorem c8_missing_asset_tolerated (cfg : LabelerCfg) (fs : FS)
    (log : List Event) (line : String) (rest : List String)
    (a0 a1 : String) (c : T)
    (h0 : py_get (py_split line) 0 = .ok a0)
    (h1 : py_get (py_split line) 1 = .ok a1)
    (hc : check_class_py a1 = .ok (some c))
    (hmiss : ¬ path_exists fs (cfg.data_dir ++ [cfg.image_dir, image_fname a0 cfg.ext]))
    (hneq : cfg.data_dir ++ [cfg.image_dir, image_fname a0 cfg.ext] ≠
            cfg.dest_dir ++ [c.nameStr]) :
    ∃ fs' : FS,
      move_files_step cfg (fs, log) line =
        .ok (fs', log ++ [Event.missingFile
              (cfg.data_dir ++ [cfg.image_dir, image_fname a0 cfg.ext])]) ∧
      fs'.files = fs.files ∧
      run_rows cfg (fs, log) (line :: rest) =
        run_rows cfg (fs', log ++ [Event.missingFile
              (cfg.data_dir ++ [cfg.image_dir, image_fname a0 cfg.ext])]) rest := by
  classical
  set current := cfg.data_dir ++ [cfg.image_dir, image_fname a0 cfg.ext] with hcur
  set destClassDir := cfg.dest_dir ++ [c.nameStr] with hdcd
  set fs' := if path_exists fs destClassDir then fs else make_folder fs destClassDir
    with hfs'
  have hfiles : fs'.files = fs.files := by
    rw [hfs']
    split
    · rfl
    · simp [make_folder]
      split <;> rfl
  have hmiss' : ¬ path_exists fs' current := by
    rw [hfs']
    split
    · exact hmiss
    · simp only [make_folder]
      split
      · exact hmiss
      · intro hex
        rcases hex with hf | hd
        · exact hmiss (Or.inl hf)
        · rcases List.mem_cons.mp hd with he | hd'
          · exact hneq he
          · exact hmiss (Or.inr hd')
  have hstep : move_files_step cfg (fs, log) line =
      .ok (fs', log ++ [Event.missingFile current]) := by
    simp only [move_files_step, h0, h1, hc, py_class_name, bind, Except.bind]
    rw [← hcur, ← hdcd, ← hfs']
    rw [if_neg hmiss']
    rfl
  refine ⟨fs', hstep, hfiles, ?_⟩
  simp only [run_rows, List.foldlM, hstep]
  rfl

/-- Witness for C8: a record `PGC2 3` whose source image is absent is logged
as a miss, the file set is untouched, and the loop proceeds to the rest of
the batch. -/
theorem c8_missing_asset_tolerated_witness :
    ∃ fs' : FS,
      move_files_step ⟨["d"], "png", ["r", "train"], none⟩
          (⟨[["d", "png", "PGC1.png"]], []⟩, []) "PGC2 3" =
        .ok (fs', [Event.missingFile ["d", "png", "PGC2.png"]]) ∧
      fs'.files = [["d", "png", "PGC1.png"]] ∧
      run_rows ⟨["d"], "png", ["r", "train"], none⟩
          (⟨[["d", "png", "PGC1.png"]], []⟩, []) ["PGC2 3"] =
        run_rows ⟨["d"], "png", ["r", "train"], none⟩
          (fs', [Event.missingFile ["d", "png", "PGC2.png"]]) [] := by
  obtain ⟨fs', h1, h2, h3⟩ :=
    c8_missing_asset_tolerated ⟨["d"], "png", ["r", "train"], none⟩
      ⟨[["d", "png", "PGC1.png"]], []⟩ [] "PGC2 3" [] "PGC2" "3" T.SPIRAL
      (by decide) (by decide) (by decide) (by decide) (by decide)
  exact ⟨fs', h1, h2, h3⟩

/-- C6 counterexample: when the destination file already exists, the
move is not caught-and-skipped: `os.rename` silently replaces the
destination and the source file does *not* stay in place — after the step
the source path is gone from the file set. -/
theorem c6_collision_source_not_in_place :
    move_files_step ⟨["d"], "png", ["r", "train"], none⟩
        (⟨[["d", "png", "PGC2.png"], ["r", "train", "SPIRAL", "PGC2.png"]],
          [["r", "train", "SPIRAL"]]⟩, []) "PGC2 3" =
      .ok (⟨[["r", "train", "SPIRAL", "PGC2.png"]],
            [["r", "train", "SPIRAL"]]⟩, []) ∧
    (["d", "png", "PGC2.png"] : FPath) ∉
      ([["r", "train", "SPIRAL", "PGC2.png"]] : List FPath) := by
  decide

/-- C6 (amended): when the source file exists, the move itself never
raises in a sequential run: if the destination file already exists it is
silently replaced (`os.rename` semantics) — the source file leaves its
original location and the asset ends up solely at the destination — and the
batch continues with the remaining records.  Only a `FileNotFoundError`
raised by `shutil.move` would be caught and logged; no other failure mode
is handled. -/
theorem c6_collision_overwrites_and_continues (cfg : LabelerCfg) (fs : FS)
    (log : List Event) (line : String) (rest : List String)
    (a0 a1 : String) (c : T)
    (h0 : py_get (py_split line) 0 = .ok a0)
    (h1 : py_get (py_split line) 1 = .ok a1)
    (hc : check_class_py a1 = .ok (some c))
    (hdcd : cfg.dest_dir ++ [c.nameStr] ∈ fs.dirs)
    (hsrc : cfg.data_dir ++ [cfg.image_dir, image_fname a0 cfg.ext] ∈ fs.files)
    (_hdst : (cfg.dest_dir ++ [c.nameStr]) ++ [image_fname a0 cfg.ext] ∈ fs.files)
    (hdnd : (cfg.dest_dir ++ [c.nameStr]) ++ [image_fname a0 cfg.ext] ∉ fs.dirs)
    (hne : cfg.data_dir ++ [cfg.image_dir, image_fname a0 cfg.ext] ≠
           (cfg.dest_dir ++ [c.nameStr]) ++ [image_fname a0 cfg.ext]) :
    move_files_step cfg (fs, log) line =
      .ok (⟨add_file
              (remove_file fs.files
                (cfg.data_dir ++ [cfg.image_dir, image_fname a0 cfg.ext]))
              ((cfg.dest_dir ++ [c.nameStr]) ++ [image_fname a0 cfg.ext]),
            fs.dirs⟩, log) ∧
    cfg.data_dir ++ [cfg.image_dir, image_fname a0 cfg.ext] ∉
      add_file (remove_file fs.files
          (cfg.data_dir ++ [cfg.image_dir, image_fname a0 cfg.ext]))
        ((cfg.dest_dir ++ [c.nameStr]) ++ [image_fname a0 cfg.ext]) ∧
    (cfg.dest_dir ++ [c.nameStr]) ++ [image_fname a0 cfg.ext] ∈
      add_file (remove_file fs.files
          (cfg.data_dir ++ [cfg.image_dir, image_fname a0 cfg.ext]))
        ((cfg.dest_dir ++ [c.nameStr]) ++ [image_fname a0 cfg.ext]) ∧
    run_rows cfg (fs, log) (line :: rest) =
      run_rows cfg
        (⟨add_file
            (remove_file fs.files
              (cfg.data_dir ++ [cfg.image_dir, image_fname a0 cfg.ext]))
            ((cfg.dest_dir ++ [c.nameStr]) ++ [image_fname a0 cfg.ext]),
          fs.dirs⟩, log) rest := by
  classical
  set current := cfg.data_dir ++ [cfg.image_dir, image_fname a0 cfg.ext] with hcur
  set destClassDir := cfg.dest_dir ++ [c.nameStr] with hdcddef
  set destPath := destClassDir ++ [image_fname a0 cfg.ext] with hdp
  have hstep : move_files_step cfg (fs, log) line =
      .ok (⟨add_file (remove_file fs.files current) destPath, fs.dirs⟩, log) := by
    have hpe : path_exists fs destClassDir := Or.inr hdcd
    have hce : path_exists fs current := Or.inl hsrc
    simp only [move_files_step, h0, h1, hc, py_class_name, bind, Except.bind]
    rw [← hcur, ← hdcddef]
    simp only [hpe, if_true, hce]
    simp only [shutil_move, ← hdp]
    rw [if_neg hdnd]
    rfl
  have hout : current ∉ add_file (remove_file fs.files current) destPath := by
    simp only [add_file, remove_file]
    intro hmem
    rcases List.mem_cons.mp hmem with he | hm
    · exact hne he
    · have := (List.mem_filter.mp hm).1
      have h2 := (List.mem_filter.mp this).2
      simp at h2
  have hin : destPath ∈ add_file (remove_file fs.files current) destPath := by
    simp [add_file]
  refine ⟨hstep, hout, hin, ?_⟩
  simp only [run_rows, List.foldlM, hstep]
  rfl

/-- Witness for C6 (amended): record `PGC3 -5` (Elliptical) whose source
exists and whose destination file already exists; the destination is
replaced, the source leaves its place, and the batch continues. -/
theorem c6_collision_overwrites_and_continues_witness :
    move_files_step ⟨["d"], "png", ["r", "train"], none⟩
        (⟨[["d", "png", "PGC3.png"], ["r", "train", "ELLIPTICAL", "PGC3.png"]],
          [["r", "train", "ELLIPTICAL"]]⟩, []) "PGC3 -5" =
      .ok (⟨add_file
              (remove_file
                [["d", "png", "PGC3.png"], ["r", "train", "ELLIPTICAL", "PGC3.png"]]
                ["d", "png", "PGC3.png"])
              ["r", "train", "ELLIPTICAL", "PGC3.png"],
            [["r", "train", "ELLIPTICAL"]]⟩, []) ∧
    (["d", "png", "PGC3.png"] : FPath) ∉
      add_file
        (remove_file
          [["d", "png", "PGC3.png"], ["r", "train", "ELLIPTICAL", "PGC3.png"]]
          ["d", "png", "PGC3.png"])
        ["r", "train", "ELLIPTICAL", "PGC3.png"] := by
  obtain ⟨h1, h2, h3, h4⟩ :=
    c6_collision_overwrites_and_continues ⟨["d"], "png", ["r", "train"], none⟩
      ⟨[["d", "png", "PGC3.png"], ["r", "train", "ELLIPTICAL", "PGC3.png"]],
        [["r", "train", "ELLIPTICAL"]]⟩ [] "PGC3 -5" [] "PGC3" "-5" T.ELLIPTICAL
      (by decide) (by decide) (by decide) (by decide) (by decide) (by decide)
      (by decide) (by decide)
  exact ⟨h1, h2⟩

/-! ## Folder scaffolder (`make_folders_from_labels`, lines 229-253)

The body builds `mkdir -p` shell commands.  Crucially the loop
`for label_class in label_classes:` *reassigns* `commands` on every
iteration instead of appending, so after the loop only the commands for the
last label remain; with an empty label list `commands` was never assigned
and the trailing use raises `NameError`.  The function's value is modelled
as the list of directories the executed `mkdir -p` commands create. -/

def make_folders_from_labels (root_dir : FPath) (label_classes : List String) :
    Except PyErr (List FPath) :=
  match label_classes.foldl
      (fun _ label_class =>
        some [root_dir ++ ["train", label_class],
              root_dir ++ ["validation", label_class]])
      (none : Option (List FPath)) with
  | some commands => .ok commands
  | none => .error .nameError

/-- C3 (the code, at the claim's input): one run of
`make_folders_from_labels` on the fixed five-label set creates only the two
directories of the *last* label (`DWARF`) — the loop overwrites `commands`
instead of extending it — so e.g. `root/train/ELLIPTICAL` is never created
and only 2 of the 10 leaf directories are attempted. -/
theorem c3_scaffolder_creates_only_last_label :
    make_folders_from_labels ["r"]
        ["ELLIPTICAL", "LENTICULAR", "SPIRAL", "IRREGULAR", "DWARF"] =
      .ok [["r", "train", "DWARF"], ["r", "validation", "DWARF"]] ∧
    (["r", "train", "DWARF"] : FPath) ∈
      ([["r", "train", "DWARF"], ["r", "validation", "DWARF"]] : List FPath) ∧
    (["r", "train", "ELLIPTICAL"] : FPath) ∉
      ([["r", "train", "DWARF"], ["r", "validation", "DWARF"]] : List FPath) ∧
    ([["r", "train", "DWARF"], ["r", "validation", "DWARF"]] : List FPath).length
      = 2 := by
  decide

/-! ## Stratified splitter (`shuffle_data`, lines 395-445)

The split fraction is modelled by `ℚ`.  `int(data_split*float(total_num))`
truncates toward zero; the product is non-negative here, so truncation is
`Int.floor` followed by `Int.toNat`.  `random.sample(images, k)` draws `k`
distinct files; the draw is a parameter (`chosen`) of the relocation loop.
In the loop body, `destination_dir` is built by splitting the *file* path on
`"/train/"`, so it ends in the file's own name; when it does not yet exist,
`make_folder` creates a directory at that full path, and `shutil.move` then
relocates the file *into* that directory. -/

/-- The fraction `shuffle_data` actually uses (lines 400-411): the given
`data_split` when `0 < data_split < 1`, the default `0.2` otherwise; no
branch raises. -/
def shuffle_split (data_split : ℚ) : ℚ :=
  if 0 < data_split ∧ data_split < 1 then data_split else 1/5

/-- Lines printed by the fraction-normalisation block of `shuffle_data`
(lines 400-411); each `print` there is guarded by `if verbose`. -/
def shuffle_split_warning (data_split : ℚ) (verbose : Bool) : List String :=
  if 0 < data_split ∧ data_split < 1 then
    if verbose then
      ["Training data generated using default train-validation split ..."]
    else []
  else
    (if verbose then
      ["Please input a data_split value between 0 and 1 ..."]
    else []) ++
    (if verbose then
      ["Training data generated using default train-validation split of 20% ..."]
    else [])

/-- Sample size `number_of_validation = int(data_split*float(total_num))` (line 425). -/
def number_of_validation (data_split : ℚ) (total_num : ℕ) : ℕ :=
  (Int.floor (data_split * (total_num : ℚ))).toNat

/-- Body of `for file_dir in files_to_move` (lines 432-438) for the file
`root/train/<className>/<name>`: build `destination_dir` by replacing the
`train` component with `validation` (string split on `"/train/"` and
reassembly), create a directory there when the path does not exist, then
`shutil.move` the file. -/
def shuffle_move_one (root : FPath) (class_name name : String) (fs : FS) : FS :=
  let file_dir := root ++ ["train", class_name, name]
  let destination_dir := root ++ ["validation", class_name, name]
  let fs := if path_exists fs destination_dir then fs
            else make_folder fs destination_dir
  shutil_move fs file_dir destination_dir

/-- The relocation loop of `shuffle_data` for one training class directory:
move each sampled file name in turn. -/
def shuffle_class (root : FPath) (class_name : String) (chosen : List String)
    (fs : FS) : FS :=
  chosen.foldl (fun fs name => shuffle_move_one root class_name name fs) fs

/-- Number of files lying directly in directory `d` (the `glob` counts of
lines 439-440 count `d/*.png` entries, not files nested deeper). -/
def files_directly_in (fs : FS) (d : FPath) : ℕ :=
  (fs.files.filter (fun p => p.dropLast = d)).length

/-- C7: `shuffle_data` never raises on an out-of-range fraction: for
`f ≤ 0` or `f ≥ 1` it proceeds with the default fraction `0.2`, printing
the warning `Please input a data_split value between 0 and 1 ...` (the
prints are guarded by the `verbose` flag), and for `0 < f < 1` it uses `f`
itself. -/
theorem c7_split_fallback (f : ℚ) :
    ((f ≤ 0 ∨ 1 ≤ f) → shuffle_split f = 1/5 ∧
      "Please input a data_split value between 0 and 1 ..." ∈
        shuffle_split_warning f true) ∧
    (0 < f → f < 1 → shuffle_split f = f) := by
  constructor
  · intro h
    have hnot : ¬ (0 < f ∧ f < 1) := by
      rcases h with h | h
      · rintro ⟨h1, -⟩; exact absurd h1 (not_lt.mpr h)
      · rintro ⟨-, h2⟩; exact absurd h2 (not_lt.mpr h)
    constructor
    · unfold shuffle_split
      rw [if_neg hnot]
    · unfold shuffle_split_warning
      rw [if_neg hnot]
      simp
  · intro h1 h2
    unfold shuffle_split
    rw [if_pos ⟨h1, h2⟩]

/-- Witness for C7 at the spec's scenario `f = 1.5`. -/
theorem c7_split_fallback_witness :
    (1 : ℚ) ≤ 3/2 ∧ shuffle_split (3/2) = 1/5 ∧
    "Please input a data_split value between 0 and 1 ..." ∈
      shuffle_split_warning (3/2) true :=
  ⟨by norm_num, (c7_split_fallback (3/2)).1 (Or.inr (by norm_num))⟩

/-- C9: with `0 < f < 1` and at least one file in the class directory,
the sample size `k = int(f * n)` satisfies `k < n`: the splitter never
drains a non-empty training class directory completely. -/
theorem c9_sample_lt_total (f : ℚ) (n : ℕ) (hf0 : 0 < f) (hf1 : f < 1)
    (hn : 1 ≤ n) : number_of_validation f n < n := by
  unfold number_of_validation
  have hnq : (0 : ℚ) < (n : ℚ) := by exact_mod_cast hn
  have hlt : f * (n : ℚ) < (n : ℚ) := by
    calc f * (n : ℚ) < 1 * (n : ℚ) := by
          exact mul_lt_mul_of_pos_right hf1 hnq
      _ = (n : ℚ) := one_mul _
  have hfl : Int.floor (f * (n : ℚ)) < (n : ℤ) := by
    exact Int.floor_lt.mpr (by exact_mod_cast hlt)
  have h0 : (0 : ℤ) ≤ Int.floor (f * (n : ℚ)) := by
    apply Int.floor_nonneg.mpr
    positivity
  omega

/-- Witness for C9: ten files, `f = 3/10`, sample size `3 < 10`. -/
theorem c9_sample_lt_total_witness :
    (0 : ℚ) < 3/10 ∧ (3/10 : ℚ) < 1 ∧ 1 ≤ 10 ∧
    number_of_validation (3/10) 10 < 10 :=
  ⟨by norm_num, by norm_num, by norm_num,
    c9_sample_lt_total (3/10) 10 (by norm_num) (by norm_num) (by norm_num)⟩

/-- C2 (the code, at the claim's failing input): class directory
`train/SPIRAL` with files `a.png`, `b.png` and fraction `1/2`, so `k = 1`,
with `a.png` drawn.  The training class directory does retain `n − k = 1`
file, but the validation class directory directly holds `0` files, not
`k = 1`: the loop first creates a *directory* at
`validation/SPIRAL/a.png` (the `destination_dir` string includes the file
name) and `shutil.move` then lands the file at
`validation/SPIRAL/a.png/a.png`, one level deeper than the claim states. -/
theorem c2_validation_file_nested_one_level_deeper :
    number_of_validation (1/2) 2 = 1 ∧
    shuffle_class ["r"] "SPIRAL" ["a.png"]
        ⟨[["r", "train", "SPIRAL", "a.png"], ["r", "train", "SPIRAL", "b.png"]],
          [["r", "train", "SPIRAL"]]⟩ =
      ⟨[["r", "validation", "SPIRAL", "a.png", "a.png"],
          ["r", "train", "SPIRAL", "b.png"]],
        [["r", "validation", "SPIRAL", "a.png"], ["r", "train", "SPIRAL"]]⟩ ∧
    files_directly_in
        ⟨[["r", "validation", "SPIRAL", "a.png", "a.png"],
            ["r", "train", "SPIRAL", "b.png"]],
          [["r", "validation", "SPIRAL", "a.png"], ["r", "train", "SPIRAL"]]⟩
        ["r", "train", "SPIRAL"] = 1 ∧
    files_directly_in
        ⟨[["r", "validation", "SPIRAL", "a.png", "a.png"],
            ["r", "train", "SPIRAL", "b.png"]],
          [["r", "validation", "SPIRAL", "a.png"], ["r", "train", "SPIRAL"]]⟩
        ["r", "validation", "SPIRAL"] = 0 ∧
    (["r", "validation", "SPIRAL", "a.png"] : FPath) ∈
      ([["r", "validation", "SPIRAL", "a.png"], ["r", "train", "SPIRAL"]] :
        List FPath) := by
  refine ⟨by norm_num [number_of_validation], by decide, by decide, by decide,
    by decide⟩

theorem append_cons_ne (root : FPath) {a b : String} (l l' : List String)
    (h : a ≠ b) : root ++ a :: l ≠ root ++ b :: l' := by
  intro he
  have h2 : a :: l = b :: l' := List.append_cancel_left he
  exact h (List.head_eq_of_cons_eq h2)

theorem mem_files_shuffle_move_one (root : FPath) (class_name c m : String)
    (fs : FS) (hne : m ≠ c)
    (hmem : root ++ ["train", class_name, m] ∈ fs.files) :
    root ++ ["train", class_name, m] ∈
      (shuffle_move_one root class_name c fs).files := by
  classical
  set p := root ++ ["train", class_name, m] with hp
  set src := root ++ ["train", class_name, c] with hsrc
  set dst := root ++ ["validation", class_name, c] with hdst
  have hps : p ≠ src := by
    intro he
    have h2 : (["train", class_name, m] : List String) = ["train", class_name, c] :=
      List.append_cancel_left he
    have : m = c := by
      simpa using congrArg (fun l => l.getLast? ) h2
    exact hne this
  unfold shuffle_move_one
  rw [← hsrc, ← hdst]
  set fs1 := if path_exists fs dst then fs else make_folder fs dst with hfs1
  have hmem1 : p ∈ fs1.files := by
    rw [hfs1]
    split
    · exact hmem
    · simp only [make_folder]
      split
      · exact hmem
      · exact hmem
  simp only [shutil_move]
  set realDst := if dst ∈ fs1.dirs then dst ++ [src.getLastD ""] else dst
    with hrd
  have hpd : p ≠ realDst := by
    rw [hrd]
    split
    · rw [hdst, hp, List.append_assoc]
      exact append_cons_ne root _ _ (by decide)
    · rw [hdst, hp]
      exact append_cons_ne root _ _ (by decide)
  simp only [add_file, remove_file]
  apply List.mem_cons_of_mem
  apply List.mem_filter.mpr
  refine ⟨List.mem_filter.mpr ⟨hmem1, by simp [hps]⟩, by simp [hpd]⟩

/-- C10: a file of the training class directory that is not among the
drawn sample names stays at its original path after the class's relocation
loop completes. -/
theorem c10_unchosen_file_stays (root : FPath) (class_name : String)
    (chosen : List String) (fs : FS) (m : String)
    (hm : m ∉ chosen)
    (hmem : root ++ ["train", class_name, m] ∈ fs.files) :
    root ++ ["train", class_name, m] ∈
      (shuffle_class root class_name chosen fs).files := by
  induction chosen generalizing fs with
  | nil => exact hmem
  | cons c cs ih =>
      have hne : m ≠ c := fun he => hm (by simp [he])
      have hm' : m ∉ cs := fun hin => hm (by simp [hin])
      exact ih _ hm' (mem_files_shuffle_move_one root class_name c m fs hne hmem)

/-- Witness for C10: with `a.png` drawn and `b.png` not drawn, `b.png` is
still at `train/SPIRAL/b.png` after the loop. -/
theorem c10_unchosen_file_stays_witness :
    (["r", "train", "SPIRAL", "b.png"] : FPath) ∈
      (shuffle_class ["r"] "SPIRAL" ["a.png"]
        ⟨[["r", "train", "SPIRAL", "a.png"], ["r", "train", "SPIRAL", "b.png"]],
          [["r", "train", "SPIRAL"]]⟩).files :=
  c10_unchosen_file_stays ["r"] "SPIRAL" ["a.png"]
    ⟨[["r", "train", "SPIRAL", "a.png"], ["r", "train", "SPIRAL", "b.png"]],
      [["r", "train", "SPIRAL"]]⟩ "b.png" (by decide) (by decide)
